import Mathlib

/-!
Formal model of the scoring engine in `app.py` of the customer-success
health dashboard.  The engine ingests a raw account table and a weight
configuration, coerces fields, normalizes five metrics into [0,1] scores,
computes a weighted composite `Health_Score`, buckets it into bands, and
derives recommendation strings.  Pandas float semantics (NaN, signed
infinities, `clip`, `fillna`, `max`, banker's rounding, right-closed
`pd.cut` bins) are modelled explicitly by the `PFloat` type below; finite
values are idealized as rationals.
-/

set_option maxRecDepth 100000

/-- A pandas/NumPy floating value: NaN, +inf, -inf, or a finite number
(idealized as a rational). -/
inductive PFloat where
  | nan
  | pinf
  | ninf
  | num (q : ℚ)
deriving DecidableEq, Repr

namespace PFloat

/-- IEEE-style addition: NaN propagates, inf + (-inf) = NaN. -/
def add : PFloat → PFloat → PFloat
  | nan, _ => nan
  | _, nan => nan
  | pinf, ninf => nan
  | ninf, pinf => nan
  | pinf, _ => pinf
  | _, pinf => pinf
  | ninf, _ => ninf
  | _, ninf => ninf
  | num a, num b => num (a + b)

/-- IEEE-style subtraction: NaN propagates, inf - inf = NaN. -/
def sub : PFloat → PFloat → PFloat
  | nan, _ => nan
  | _, nan => nan
  | pinf, pinf => nan
  | ninf, ninf => nan
  | pinf, _ => pinf
  | ninf, _ => ninf
  | num _, pinf => ninf
  | num _, ninf => pinf
  | num a, num b => num (a - b)

/-- IEEE-style multiplication: NaN propagates, inf * 0 = NaN, sign rules. -/
def mul : PFloat → PFloat → PFloat
  | nan, _ => nan
  | _, nan => nan
  | pinf, pinf => pinf
  | pinf, ninf => ninf
  | ninf, pinf => ninf
  | ninf, ninf => pinf
  | pinf, num b => if 0 < b then pinf else if b < 0 then ninf else nan
  | num a, pinf => if 0 < a then pinf else if a < 0 then ninf else nan
  | ninf, num b => if 0 < b then ninf else if b < 0 then pinf else nan
  | num a, ninf => if 0 < a then ninf else if a < 0 then pinf else nan
  | num a, num b => num (a * b)

/-- IEEE-style division: NaN propagates, inf/inf = NaN, 0/0 = NaN,
q/0 = inf with the sign of q (zero is modelled unsigned, i.e. +0),
finite/inf = 0. -/
def div : PFloat → PFloat → PFloat
  | nan, _ => nan
  | _, nan => nan
  | pinf, pinf => nan
  | pinf, ninf => nan
  | ninf, pinf => nan
  | ninf, ninf => nan
  | pinf, num b => if 0 ≤ b then pinf else ninf
  | ninf, num b => if 0 ≤ b then ninf else pinf
  | num _, pinf => num 0
  | num _, ninf => num 0
  | num a, num b =>
    if b = 0 then (if a = 0 then nan else if 0 < a then pinf else ninf)
    else num (a / b)

/-- pandas `Series.clip(lo, hi)`: NaN passes through, infinities saturate,
finite values are clamped. -/
def clip (lo hi : ℚ) : PFloat → PFloat
  | nan => nan
  | pinf => num hi
  | ninf => num lo
  | num q => num (min hi (max lo q))

/-- pandas `fillna(d)`: replaces NaN (and only NaN) by `d`. -/
def fillna (d : ℚ) : PFloat → PFloat
  | nan => num d
  | x => x

/-- IEEE-style strict less-than: any comparison with NaN is false. -/
def lt : PFloat → PFloat → Bool
  | nan, _ => false
  | _, nan => false
  | ninf, ninf => false
  | ninf, _ => true
  | pinf, _ => false
  | num _, pinf => true
  | num _, ninf => false
  | num a, num b => decide (a < b)

/-- IEEE-style less-or-equal: any comparison with NaN is false. -/
def le : PFloat → PFloat → Bool
  | nan, _ => false
  | _, nan => false
  | ninf, _ => true
  | _, pinf => true
  | pinf, _ => false
  | num _, ninf => false
  | num a, num b => decide (a ≤ b)

/-- Round a rational to the nearest integer, ties to even (IEEE /
NumPy `round` semantics, used by pandas `Series.round`). -/
def roundHalfEven (q : ℚ) : ℤ :=
  if q - Rat.floor q < 1/2 then Rat.floor q
  else if 1/2 < q - Rat.floor q then Rat.floor q + 1
  else if Rat.floor q % 2 = 0 then Rat.floor q else Rat.floor q + 1

/-- pandas `Series.round(1)`: one decimal place, banker's rounding;
NaN and infinities pass through. -/
def round1 : PFloat → PFloat
  | nan => nan
  | pinf => pinf
  | ninf => ninf
  | num q => num ((roundHalfEven (q * 10) : ℚ) / 10)

/-- The value is a finite number within [lo, hi].  NaN and infinities are
never in range. -/
def inRange (lo hi : ℚ) : PFloat → Prop
  | num q => lo ≤ q ∧ q ≤ hi
  | _ => False

instance (lo hi : ℚ) : (x : PFloat) → Decidable (inRange lo hi x)
  | nan => isFalse (fun h => h)
  | pinf => isFalse (fun h => h)
  | ninf => isFalse (fun h => h)
  | num q => inferInstanceAs (Decidable (lo ≤ q ∧ q ≤ hi))

end PFloat

/-- pandas `Series.max()` over a NaN-free numeric column: NaN on the empty
series, otherwise the maximum element. -/
def seriesMax : List ℚ → PFloat
  | [] => PFloat.nan
  | x :: xs => PFloat.num (xs.foldl max x)

/-- One row of the uploaded CSV after column access: each numeric cell is
either a parseable finite number or missing/unparseable (`none`, i.e. what
`pd.to_numeric(..., errors="coerce")` turns into NaN), and `Renewal_Date`
is either a parsed calendar date (as a day number) or `none` (NaT). -/
structure RawRecord where
  Customer : String
  Segment : String
  ARR : Option ℚ
  Renewal_Date : Option ℤ
  NPS : Option ℚ
  Tickets_Last_90d : Option ℚ
  CSAT : Option ℚ
  Logins_Last_30d : Option ℚ
  Active_Users : Option ℚ
  Total_Seats : Option ℚ
deriving DecidableEq, Repr

/-- The uploaded table: its column names (`df_raw.columns`) and its rows. -/
structure RawTable where
  cols : List String
  rows : List RawRecord
deriving DecidableEq, Repr

/-- Health bands produced by `pd.cut(..., labels=["Red","Yellow","Green"])`. -/
inductive Band where
  | red
  | yellow
  | green
deriving DecidableEq, Repr

/-- The caller-supplied weight configuration (the five sidebar sliders). -/
structure Weights where
  nps : ℚ
  csat : ℚ
  usage : ℚ
  logins : ℚ
  tickets : ℚ
deriving DecidableEq, Repr

/-- `sum(w.values())` in `compute_health_scores`. -/
def Weights.total (w : Weights) : ℚ :=
  w.nps + w.csat + w.usage + w.logins + w.tickets

/-- `pd.to_numeric(col, errors="coerce").fillna(dflt)` at one cell: a
missing or unparseable value becomes `dflt`. -/
def coerceCell (x : Option ℚ) (dflt : ℚ) : ℚ := x.getD dflt

/-- A row of the enriched table produced by `compute_health_scores`:
coerced raw columns plus all derived columns. -/
structure EnrichedRow where
  Customer : String
  Segment : String
  ARR : ℚ
  NPS : ℚ
  Tickets_Last_90d : ℚ
  CSAT : ℚ
  Logins_Last_30d : ℚ
  Active_Users : ℚ
  Total_Seats : ℚ
  usageFrac : PFloat
  score_nps : PFloat
  score_csat : PFloat
  score_usage : PFloat
  score_logins : PFloat
  score_tickets : PFloat
  Health_Score : PFloat
  Health_Band : Option Band
  Renewal_Date : Option ℤ
  Days_to_Renewal : PFloat
deriving DecidableEq, Repr

/-- `df["Usage_Ratio"] = (df["Active_Users"] / df["Total_Seats"]).clip(0, 1)`.
(The field holding this value is named `usageFrac` in this model.) -/
def usage_of (active seats : ℚ) : PFloat :=
  PFloat.clip 0 1 (PFloat.div (PFloat.num active) (PFloat.num seats))

/-- `df["score_nps"] = (df["NPS"].clip(-100, 100) + 100) / 200.0`. -/
def score_nps_of (nps : ℚ) : PFloat :=
  PFloat.num ((min 100 (max (-100) nps) + 100) / 200)

/-- `df["score_csat"] = df["CSAT"].clip(1, 5) / 5.0`. -/
def score_csat_of (csat : ℚ) : PFloat :=
  PFloat.num (min 5 (max 1 csat) / 5)

/-- `df["score_logins"] = (df["Logins_Last_30d"] / df["Logins_Last_30d"].max()).fillna(0)`. -/
def score_logins_of (logins : ℚ) (maxLogins : PFloat) : PFloat :=
  PFloat.fillna 0 (PFloat.div (PFloat.num logins) maxLogins)

/-- `df["score_tickets"] = (1 - (df["Tickets_Last_90d"] / df["Tickets_Last_90d"].max()).fillna(0)).clip(0, 1)`. -/
def score_tickets_of (tickets : ℚ) (maxTickets : PFloat) : PFloat :=
  PFloat.clip 0 1
    (PFloat.sub (PFloat.num 1)
      (PFloat.fillna 0 (PFloat.div (PFloat.num tickets) maxTickets)))

/-- The un-normalized weighted sum
`score_nps*w["nps"] + score_csat*w["csat"] + score_usage*w["usage"] +
score_logins*w["logins"] + score_tickets*w["tickets"]`. -/
def healthWeightedSum (s1 s2 s3 s4 s5 : PFloat) (w : Weights) : PFloat :=
  PFloat.add
    (PFloat.add
      (PFloat.add
        (PFloat.add (PFloat.mul s1 (PFloat.num w.nps))
          (PFloat.mul s2 (PFloat.num w.csat)))
        (PFloat.mul s3 (PFloat.num w.usage)))
      (PFloat.mul s4 (PFloat.num w.logins)))
    (PFloat.mul s5 (PFloat.num w.tickets))

/-- `df["Health_Score"] = (df["Health_Score"] / sum(w.values()) * 100).round(1)`. -/
def health_score_of (s1 s2 s3 s4 s5 : PFloat) (w : Weights) : PFloat :=
  PFloat.round1
    (PFloat.mul (PFloat.div (healthWeightedSum s1 s2 s3 s4 s5 w) (PFloat.num w.total))
      (PFloat.num 100))

/-- `pd.cut(score, bins=[-1, 49.9, 74.9, 100], labels=["Red","Yellow","Green"])`:
right-closed bins `(-1, 49.9]`, `(49.9, 74.9]`, `(74.9, 100]`; values
outside every bin (and NaN / infinities) get no band. -/
def bandOf : PFloat → Option Band
  | PFloat.num q =>
    if -1 < q ∧ q ≤ 499/10 then some Band.red
    else if 499/10 < q ∧ q ≤ 749/10 then some Band.yellow
    else if 749/10 < q ∧ q ≤ 100 then some Band.green
    else none
  | _ => none

/-- The per-row body of `compute_health_scores`: defensive coercion,
usage ratio, the five normalized scores (given the precomputed batch
maxima), composite score, band, and renewal horizon. -/
def enrichRow (r : RawRecord) (w : Weights) (maxLogins maxTickets : PFloat)
    (today : ℤ) : EnrichedRow :=
  let arr := coerceCell r.ARR 0
  let nps := coerceCell r.NPS 0
  let tickets := coerceCell r.Tickets_Last_90d 0
  let csat := coerceCell r.CSAT 0
  let logins := coerceCell r.Logins_Last_30d 0
  let active := coerceCell r.Active_Users 0
  let seats := coerceCell r.Total_Seats 1
  let usage := usage_of active seats
  let s1 := score_nps_of nps
  let s2 := score_csat_of csat
  let s3 := usage
  let s4 := score_logins_of logins maxLogins
  let s5 := score_tickets_of tickets maxTickets
  let hs := health_score_of s1 s2 s3 s4 s5 w
  { Customer := r.Customer
    Segment := r.Segment
    ARR := arr
    NPS := nps
    Tickets_Last_90d := tickets
    CSAT := csat
    Logins_Last_30d := logins
    Active_Users := active
    Total_Seats := seats
    usageFrac := usage
    score_nps := s1
    score_csat := s2
    score_usage := s3
    score_logins := s4
    score_tickets := s5
    Health_Score := hs
    Health_Band := bandOf hs
    Renewal_Date := r.Renewal_Date
    Days_to_Renewal :=
      match r.Renewal_Date with
      | some d => PFloat.num ((d - today : ℤ) : ℚ)
      | none => PFloat.nan }

/-- A Python runtime exception escaping a pipeline stage. -/
inductive PyErr where
  | attributeError
deriving DecidableEq, Repr

/-- A fatal outcome of the whole script run. -/
inductive Err where
  | missingColumns (cols : List String)
  | pythonError (e : PyErr)
deriving DecidableEq, Repr

/-- The enriched rows that `compute_health_scores` builds when it returns:
the batch maxima of `Logins_Last_30d` and `Tickets_Last_90d` are
series-level statistics, then every row is enriched. -/
def enrichedRows (rows : List RawRecord) (w : Weights) (today : ℤ) :
    List EnrichedRow :=
  let maxLogins := seriesMax (rows.map (fun r => coerceCell r.Logins_Last_30d 0))
  let maxTickets := seriesMax (rows.map (fun r => coerceCell r.Tickets_Last_90d 0))
  rows.map (fun r => enrichRow r w maxLogins maxTickets today)

/-- `compute_health_scores(df, weights)`, with `today` (the result of
`datetime.today()`) passed explicitly.  The renewal-horizon step (lines
59-62 of `app.py`) is fallible: after `.dt.date` the `Renewal_Date` column
has object dtype, and the elementwise subtraction `df["Renewal_Date"] -
today` is re-inferred as `timedelta64` only when at least one date parsed
(at least one element is a true `datetime.timedelta`).  When the table is
empty, or every `Renewal_Date` failed to parse (an all-NaT result), the
difference is never timedelta-like and `.dt.days` raises `AttributeError`,
so the function raises instead of returning.  On the non-raising path the
per-row day counts are the integer day differences, NaN for NaT. -/
def compute_health_scores (rows : List RawRecord) (w : Weights) (today : ℤ) :
    Except PyErr (List EnrichedRow) :=
  if rows.any (fun r => r.Renewal_Date.isSome) then
    Except.ok (enrichedRows rows w today)
  else
    Except.error PyErr.attributeError

/-- `expansion_potential(row)`. -/
def expansion_potential (row : EnrichedRow) : String :=
  if row.Health_Band = some Band.green ∧
      PFloat.lt (PFloat.num (7/10)) row.usageFrac = true ∧ 50 ≤ row.NPS then
    "High"
  else if row.Health_Band = some Band.yellow ∧
      PFloat.lt (PFloat.num (1/2)) row.usageFrac = true ∧ 20 ≤ row.NPS then
    "Medium"
  else
    "Low"

/-- `renewal_risk(row)`. -/
def renewal_risk (row : EnrichedRow) : String :=
  if row.Health_Band = some Band.red then "High"
  else if row.Health_Band = some Band.yellow then "Medium"
  else "Low"

/-- The attribute access `x.median()` on a scalar cell value.  The source
(line 101 of `app.py`) writes `row["Tickets_Last_90d"].median()` inside the
per-row function `recommended_actions`; `row["Tickets_Last_90d"]` is a
scalar (`numpy.float64`), and neither `numpy.float64` nor Python floats
have a `median` attribute, so evaluating the expression raises
`AttributeError`. -/
def scalarMedian (_x : PFloat) : Except PyErr PFloat :=
  Except.error PyErr.attributeError

/-- `recommended_actions(row)`: six rule groups appending zero or one
advisory string each, joined with a bullet separator.  The tickets rule
evaluates `row["Tickets_Last_90d"].median()` (see `scalarMedian`), so the
function raises before reaching the NPS, CSAT and renewal rules.
The renewal condition `row["Days_to_Renewal"] is not None` is identically
true in the source (the column is a float, NaN when the date failed to
parse, never `None`), so only `row["Days_to_Renewal"] <= 120` remains;
a NaN comparison is false. -/
def recommended_actions (row : EnrichedRow) : Except PyErr String := do
  let bandMsgs : List String :=
    if row.Health_Band = some Band.red then
      ["Schedule executive-sponsored escalation and detailed recovery plan."]
    else if row.Health_Band = some Band.yellow then
      ["Run focused health check and align on 90-day success plan."]
    else
      ["Reinforce value with EBR/QBR and explore expansion paths."]
  let usageMsgs : List String :=
    if PFloat.lt row.usageFrac (PFloat.num (2/5)) then
      ["Low adoption: run enablement sessions and map more use cases."]
    else if PFloat.lt (PFloat.num (4/5)) row.usageFrac then
      ["High adoption: discuss seat expansion or advanced modules."]
    else []
  let med ← scalarMedian (PFloat.num row.Tickets_Last_90d)
  let ticketMsgs : List String :=
    if PFloat.lt med (PFloat.num row.Tickets_Last_90d) then
      ["High support volume: review top ticket themes and propose fixes."]
    else []
  let npsMsgs : List String :=
    if row.NPS < 0 then
      ["Negative NPS: hold stakeholder interviews and address pain points."]
    else if 50 ≤ row.NPS then
      ["Promoter: invite to reference program or case study."]
    else []
  let csatMsgs : List String :=
    if row.CSAT < 7/2 then
      ["Improve support quality: review SLAs and support playbook."]
    else []
  let renewalMsgs : List String :=
    if PFloat.le row.Days_to_Renewal (PFloat.num 120) then
      ["Renewal <120 days: lock in mutual success plan and early commit."]
    else []
  pure (String.intercalate " • "
    (bandMsgs ++ usageMsgs ++ ticketMsgs ++ npsMsgs ++ csatMsgs ++ renewalMsgs))

/-- The final enriched row: the output of `compute_health_scores` plus the
three columns added by the `df.apply` calls. -/
structure FinalRow where
  base : EnrichedRow
  expansionPot : String
  renewalRiskLevel : String
  recActions : String
deriving DecidableEq, Repr

instance {ε α : Type} [DecidableEq ε] [DecidableEq α] : DecidableEq (Except ε α) := fun x y =>
  match x, y with
  | Except.ok a, Except.ok b =>
    if h : a = b then isTrue (by rw [h]) else isFalse (by simp [h])
  | Except.error a, Except.error b =>
    if h : a = b then isTrue (by rw [h]) else isFalse (by simp [h])
  | Except.ok _, Except.error _ => isFalse (by simp)
  | Except.error _, Except.ok _ => isFalse (by simp)

/-- The three `df.apply(..., axis=1)` passes over the enriched table.
`expansion_potential` and `renewal_risk` are total; `recommended_actions`
raises on its row, and the first exception aborts the whole run. -/
def buildFinalRows : List EnrichedRow → Except Err (List FinalRow)
  | [] => Except.ok []
  | r :: rest =>
    match recommended_actions r with
    | Except.error e => Except.error (Err.pythonError e)
    | Except.ok s =>
      match buildFinalRows rest with
      | Except.error e => Except.error e
      | Except.ok tail =>
        Except.ok ({ base := r, expansionPot := expansion_potential r,
                     renewalRiskLevel := renewal_risk r, recActions := s } :: tail)

/-- The ten required column names, in source order. -/
def required_cols : List String :=
  ["Customer", "Segment", "ARR", "Renewal_Date", "NPS", "Tickets_Last_90d",
   "CSAT", "Logins_Last_30d", "Active_Users", "Total_Seats"]

/-- `[c for c in required_cols if c not in df_raw.columns]`. -/
def missingCols (t : RawTable) : List String :=
  required_cols.filter (fun c => !(t.cols.contains c))

/-- The whole script run on one uploaded table: the required-columns check
(`st.error` + `st.stop` when some are missing), then `compute_health_scores`
(which may raise at the renewal-horizon step), then the three per-row
derivation passes. -/
def runPipeline (t : RawTable) (w : Weights) (today : ℤ) :
    Except Err (List FinalRow) :=
  if missingCols t = [] then
    match compute_health_scores t.rows w today with
    | Except.error e => Except.error (Err.pythonError e)
    | Except.ok enriched => buildFinalRows enriched
  else
    Except.error (Err.missingColumns (missingCols t))

/-- The default slider configuration of the sidebar. -/
def wDefault : Weights := ⟨3, 2, 3, 1, 2⟩

/-- All five sliders at 0 (a zero-sum weight configuration). -/
def wZero : Weights := ⟨0, 0, 0, 0, 0⟩

/-- All weight on NPS. -/
def wNpsOnly : Weights := ⟨1, 0, 0, 0, 0⟩

/-- All weight on logins. -/
def wLoginsOnly : Weights := ⟨0, 0, 0, 1, 0⟩

/-- A plain, fully populated account record used as a template for the
concrete test inputs below.  Its `Renewal_Date` parses (365 days after
day 0), so batches built from it pass the renewal-horizon step of
`compute_health_scores` and reach the recommendations stage. -/
def baseRecord : RawRecord :=
  { Customer := "Acme", Segment := "SMB", ARR := some 100, Renewal_Date := some 365,
    NPS := some 0, Tickets_Last_90d := some 0, CSAT := some 4,
    Logins_Last_30d := some 0, Active_Users := some 0, Total_Seats := some 1 }

/-- Record none of whose `Renewal_Date` cells parses (NaT), so a batch of
such records makes `compute_health_scores` raise at the `.dt.days` step. -/
def recNoDate : RawRecord := { baseRecord with Renewal_Date := none }

/-- Record whose `Total_Seats` cell holds the number 0 and whose
`Active_Users` cell holds 0 (so `Usage_Ratio` is 0/0). -/
def recSeatsZero : RawRecord :=
  { baseRecord with Total_Seats := some 0, Active_Users := some 0 }

/-- Record with a negative login count (-4), legal after coercion. -/
def recNegLoginsA : RawRecord := { baseRecord with Logins_Last_30d := some (-4) }

/-- Record with a negative login count (-2), legal after coercion. -/
def recNegLoginsB : RawRecord := { baseRecord with Logins_Last_30d := some (-2) }

/-- Record whose NPS of -0.2 yields Health_Score exactly 49.9 under
NPS-only weights. -/
def recNps499 : RawRecord := { baseRecord with NPS := some (-1/5) }

/-- Record whose NPS of 49.8 yields Health_Score exactly 74.9 under
NPS-only weights. -/
def recNps749 : RawRecord := { baseRecord with NPS := some (249/5) }

/-- Record with 1 support ticket in the last 90 days. -/
def recTicketsLow : RawRecord := { baseRecord with Tickets_Last_90d := some 1 }

/-- Record with 5 support tickets in the last 90 days (above the batch
median of the two-record batch with `recTicketsLow`). -/
def recTicketsHigh : RawRecord := { baseRecord with Tickets_Last_90d := some 5 }

/-- Record whose renewal date parses and lies 100 days after day 0. -/
def recRenewSoon : RawRecord := { baseRecord with Renewal_Date := some 100 }

/-- Record landing in the Red band under NPS-only weights. -/
def recBandRed : RawRecord := { baseRecord with NPS := some (-100) }

/-- Record landing in the Yellow band under NPS-only weights. -/
def recBandYellow : RawRecord := { baseRecord with NPS := some 20 }

/-- Record landing in the Green band under NPS-only weights. -/
def recBandGreen : RawRecord := { baseRecord with NPS := some 100 }

/-- Record whose `Total_Seats` cell is missing/unparseable. -/
def recNoSeats : RawRecord := { baseRecord with Total_Seats := none }

/-- An uploaded table whose header lacks the `Total_Seats` column. -/
def tableNoSeatsCol : RawTable :=
  { cols := ["Customer", "Segment", "ARR", "Renewal_Date", "NPS", "Tickets_Last_90d",
             "CSAT", "Logins_Last_30d", "Active_Users"],
    rows := [baseRecord] }


/-! ### Basic facts about the model -/

example : seriesMax [] = PFloat.nan := rfl
example : seriesMax [3, 7, 5] = PFloat.num 7 := by with_unfolding_all decide
example : PFloat.div (PFloat.num 0) (PFloat.num 0) = PFloat.nan := by with_unfolding_all decide
example : PFloat.clip 0 1 PFloat.pinf = PFloat.num 1 := by with_unfolding_all decide
example : PFloat.round1 (PFloat.num (1/4)) = PFloat.num (1/5) := by with_unfolding_all decide
example : PFloat.round1 (PFloat.num (499/10)) = PFloat.num (499/10) := by with_unfolding_all decide

theorem enrichRow_score_nps (r : RawRecord) (w : Weights) (mL mT : PFloat) (d : ℤ) :
    (enrichRow r w mL mT d).score_nps = score_nps_of (coerceCell r.NPS 0) := rfl

theorem enrichRow_score_csat (r : RawRecord) (w : Weights) (mL mT : PFloat) (d : ℤ) :
    (enrichRow r w mL mT d).score_csat = score_csat_of (coerceCell r.CSAT 0) := rfl

theorem enrichRow_score_usage (r : RawRecord) (w : Weights) (mL mT : PFloat) (d : ℤ) :
    (enrichRow r w mL mT d).score_usage =
      usage_of (coerceCell r.Active_Users 0) (coerceCell r.Total_Seats 1) := rfl

theorem enrichRow_usageFrac (r : RawRecord) (w : Weights) (mL mT : PFloat) (d : ℤ) :
    (enrichRow r w mL mT d).usageFrac =
      usage_of (coerceCell r.Active_Users 0) (coerceCell r.Total_Seats 1) := rfl

theorem enrichRow_score_logins (r : RawRecord) (w : Weights) (mL mT : PFloat) (d : ℤ) :
    (enrichRow r w mL mT d).score_logins =
      score_logins_of (coerceCell r.Logins_Last_30d 0) mL := rfl

theorem enrichRow_score_tickets (r : RawRecord) (w : Weights) (mL mT : PFloat) (d : ℤ) :
    (enrichRow r w mL mT d).score_tickets =
      score_tickets_of (coerceCell r.Tickets_Last_90d 0) mT := rfl

theorem enrichRow_Health_Score (r : RawRecord) (w : Weights) (mL mT : PFloat) (d : ℤ) :
    (enrichRow r w mL mT d).Health_Score =
      health_score_of (score_nps_of (coerceCell r.NPS 0))
        (score_csat_of (coerceCell r.CSAT 0))
        (usage_of (coerceCell r.Active_Users 0) (coerceCell r.Total_Seats 1))
        (score_logins_of (coerceCell r.Logins_Last_30d 0) mL)
        (score_tickets_of (coerceCell r.Tickets_Last_90d 0) mT) w := rfl

theorem enrichRow_Total_Seats (r : RawRecord) (w : Weights) (mL mT : PFloat) (d : ℤ) :
    (enrichRow r w mL mT d).Total_Seats = coerceCell r.Total_Seats 1 := rfl

theorem enrichedRows_eq (rows : List RawRecord) (w : Weights) (today : ℤ) :
    enrichedRows rows w today =
      rows.map (fun r =>
        enrichRow r w (seriesMax (rows.map (fun s => coerceCell s.Logins_Last_30d 0)))
          (seriesMax (rows.map (fun s => coerceCell s.Tickets_Last_90d 0))) today) := rfl

theorem compute_health_scores_ok {rows : List RawRecord} {w : Weights} {today : ℤ}
    {out : List EnrichedRow}
    (h : compute_health_scores rows w today = Except.ok out) :
    out = enrichedRows rows w today := by
  unfold compute_health_scores at h
  by_cases hc : rows.any (fun r => r.Renewal_Date.isSome) = true
  · rw [if_pos hc] at h
    injection h with h
    exact h.symm
  · rw [if_neg hc] at h
    exact absurd h (by simp)

/-! ### Bounds on the normalized scores -/

theorem foldl_max_init_le (l : List ℚ) (a : ℚ) : a ≤ l.foldl max a := by
  induction l generalizing a with
  | nil => exact le_refl a
  | cons x xs ih => exact le_trans (le_max_left a x) (ih (max a x))

theorem le_foldl_max_of_mem {l : List ℚ} {x : ℚ} (a : ℚ) (hx : x ∈ l) :
    x ≤ l.foldl max a := by
  induction l generalizing a with
  | nil => cases hx
  | cons y ys ih =>
    rcases List.mem_cons.mp hx with h | h
    · subst h
      exact le_trans (le_max_right a x) (foldl_max_init_le ys (max a x))
    · exact ih (max a y) h

theorem seriesMax_spec {l : List ℚ} {x : ℚ} (hx : x ∈ l) :
    ∃ M, seriesMax l = PFloat.num M ∧ x ≤ M := by
  cases l with
  | nil => cases hx
  | cons y ys =>
    refine ⟨ys.foldl max y, rfl, ?_⟩
    rcases List.mem_cons.mp hx with h | h
    · subst h; exact foldl_max_init_le ys x
    · exact le_foldl_max_of_mem y h

theorem inRange_num {lo hi : ℚ} {x : PFloat} (h : PFloat.inRange lo hi x) :
    ∃ q, x = PFloat.num q ∧ lo ≤ q ∧ q ≤ hi := by
  cases x with
  | num q => exact ⟨q, rfl, h⟩
  | nan => exact absurd h (fun hf => hf)
  | pinf => exact absurd h (fun hf => hf)
  | ninf => exact absurd h (fun hf => hf)

theorem clip01_inRange (x : PFloat) (hx : x ≠ PFloat.nan) :
    PFloat.inRange 0 1 (PFloat.clip 0 1 x) := by
  cases x with
  | nan => exact absurd rfl hx
  | pinf => exact ⟨by norm_num, by norm_num⟩
  | ninf => exact ⟨by norm_num, by norm_num⟩
  | num q =>
    exact ⟨le_min (by norm_num) (le_max_left 0 q), min_le_left 1 (max 0 q)⟩

theorem score_nps_of_inRange (n : ℚ) : PFloat.inRange 0 1 (score_nps_of n) := by
  have h1 : -100 ≤ min 100 (max (-100) n) := le_min (by norm_num) (le_max_left (-100) n)
  have h2 : min 100 (max (-100) n) ≤ 100 := min_le_left 100 (max (-100) n)
  constructor
  · apply div_nonneg _ (by norm_num : (0:ℚ) ≤ 200)
    linarith
  · rw [div_le_one (by norm_num : (0:ℚ) < 200)]
    linarith

theorem score_csat_of_inRange (c : ℚ) : PFloat.inRange 0 1 (score_csat_of c) := by
  have h1 : 1 ≤ min 5 (max 1 c) := le_min (by norm_num) (le_max_left 1 c)
  have h2 : min 5 (max 1 c) ≤ 5 := min_le_left 5 (max 1 c)
  constructor
  · apply div_nonneg _ (by norm_num : (0:ℚ) ≤ 5)
    linarith
  · rw [div_le_one (by norm_num : (0:ℚ) < 5)]
    linarith

theorem div_num_ne_nan (a s : ℚ) (h : s ≠ 0 ∨ a ≠ 0) :
    PFloat.div (PFloat.num a) (PFloat.num s) ≠ PFloat.nan := by
  by_cases hs : s = 0
  · have ha : a ≠ 0 := by
      rcases h with h | h
      · exact absurd hs h
      · exact h
    by_cases hpos : 0 < a
    · simp [PFloat.div, hs, ha, hpos]
    · simp [PFloat.div, hs, ha, hpos]
  · simp [PFloat.div, hs]

theorem usage_of_inRange (a s : ℚ) (h : s ≠ 0 ∨ a ≠ 0) :
    PFloat.inRange 0 1 (usage_of a s) :=
  clip01_inRange _ (div_num_ne_nan a s h)

theorem score_logins_of_inRange (x M : ℚ) (h0 : 0 ≤ x) (hM : x ≤ M) :
    PFloat.inRange 0 1 (score_logins_of x (PFloat.num M)) := by
  unfold score_logins_of
  by_cases hMz : M = 0
  · have hx0 : x = 0 := le_antisymm (hMz ▸ hM) h0
    subst hx0 hMz
    simp [PFloat.div, PFloat.fillna]
    exact ⟨le_refl 0, by norm_num⟩
  · have hMpos : 0 < M := lt_of_le_of_ne (le_trans h0 hM) (Ne.symm hMz)
    simp [PFloat.div, hMz, PFloat.fillna]
    exact ⟨div_nonneg h0 hMpos.le, (div_le_one hMpos).mpr hM⟩

theorem score_tickets_of_inRange (x M : ℚ) (hM : x ≤ M) :
    PFloat.inRange 0 1 (score_tickets_of x (PFloat.num M)) := by
  unfold score_tickets_of
  apply clip01_inRange
  by_cases hMz : M = 0
  · by_cases hx : x = 0
    · simp [PFloat.div, hMz, hx, PFloat.fillna, PFloat.sub]
    · have hneg : ¬ 0 < x := not_lt.mpr (hMz ▸ hM)
      simp [PFloat.div, hMz, hx, hneg, PFloat.fillna, PFloat.sub]
  · simp [PFloat.div, hMz, PFloat.fillna, PFloat.sub]

/-! ### Rounding bounds -/

theorem ratFloor_eq_floor (q : ℚ) : Rat.floor q = ⌊q⌋ := by
  rw [Rat.floor_def' q, Rat.floor_def]

theorem roundHalfEven_nonneg {q : ℚ} (h : 0 ≤ q) : 0 ≤ PFloat.roundHalfEven q := by
  have hf : (0:ℤ) ≤ Rat.floor q := by
    rw [ratFloor_eq_floor]
    exact Int.floor_nonneg.mpr h
  unfold PFloat.roundHalfEven
  split
  · exact hf
  · split
    · omega
    · split
      · exact hf
      · omega

theorem roundHalfEven_le {q : ℚ} {B : ℤ} (h : q ≤ B) : PFloat.roundHalfEven q ≤ B := by
  have hfq : ((Rat.floor q : ℤ) : ℚ) ≤ q := by
    rw [ratFloor_eq_floor]
    exact Int.floor_le q
  have hfB : Rat.floor q ≤ B := by
    have : ((Rat.floor q : ℤ) : ℚ) ≤ (B : ℚ) := le_trans hfq h
    exact_mod_cast this
  have hsucc : ¬ (q - Rat.floor q < 1/2) → Rat.floor q + 1 ≤ B := by
    intro hr
    push_neg at hr
    have : ((Rat.floor q : ℤ) : ℚ) < (B : ℚ) := by linarith
    have hlt : Rat.floor q < B := by exact_mod_cast this
    omega
  unfold PFloat.roundHalfEven
  split
  · exact hfB
  · next hr =>
    split
    · exact hsucc hr
    · split
      · exact hfB
      · exact hsucc hr

theorem round1_num_inRange {q : ℚ} (h0 : 0 ≤ q) (h1 : q ≤ 100) :
    PFloat.inRange 0 100 (PFloat.round1 (PFloat.num q)) := by
  have hlo : (0:ℤ) ≤ PFloat.roundHalfEven (q * 10) := roundHalfEven_nonneg (by linarith)
  have hhi : PFloat.roundHalfEven (q * 10) ≤ (1000 : ℤ) := by
    apply roundHalfEven_le
    push_cast
    linarith
  constructor
  · apply div_nonneg _ (by norm_num : (0:ℚ) ≤ 10)
    exact_mod_cast hlo
  · rw [div_le_iff₀ (by norm_num : (0:ℚ) < 10)]
    have : ((PFloat.roundHalfEven (q * 10) : ℤ) : ℚ) ≤ ((1000 : ℤ) : ℚ) := by
      exact_mod_cast hhi
    push_cast at this ⊢
    linarith

/-! ### Bounds on the composite score -/

theorem health_score_of_inRange (s1 s2 s3 s4 s5 : PFloat) (w : Weights)
    (h1 : PFloat.inRange 0 1 s1) (h2 : PFloat.inRange 0 1 s2)
    (h3 : PFloat.inRange 0 1 s3) (h4 : PFloat.inRange 0 1 s4)
    (h5 : PFloat.inRange 0 1 s5)
    (hw1 : 0 ≤ w.nps) (hw2 : 0 ≤ w.csat) (hw3 : 0 ≤ w.usage)
    (hw4 : 0 ≤ w.logins) (hw5 : 0 ≤ w.tickets) (hpos : 0 < w.total) :
    PFloat.inRange 0 100 (health_score_of s1 s2 s3 s4 s5 w) := by
  obtain ⟨q1, rfl, h1l, h1u⟩ := inRange_num h1
  obtain ⟨q2, rfl, h2l, h2u⟩ := inRange_num h2
  obtain ⟨q3, rfl, h3l, h3u⟩ := inRange_num h3
  obtain ⟨q4, rfl, h4l, h4u⟩ := inRange_num h4
  obtain ⟨q5, rfl, h5l, h5u⟩ := inRange_num h5
  have htot : w.total ≠ 0 := ne_of_gt hpos
  have hX :
      healthWeightedSum (PFloat.num q1) (PFloat.num q2) (PFloat.num q3)
        (PFloat.num q4) (PFloat.num q5) w =
      PFloat.num (q1 * w.nps + q2 * w.csat + q3 * w.usage + q4 * w.logins + q5 * w.tickets) := by
    simp only [healthWeightedSum, PFloat.mul, PFloat.add, PFloat.num.injEq]
  set X := q1 * w.nps + q2 * w.csat + q3 * w.usage + q4 * w.logins + q5 * w.tickets with hXdef
  have hX0 : 0 ≤ X := by
    have := mul_nonneg h1l hw1
    have := mul_nonneg h2l hw2
    have := mul_nonneg h3l hw3
    have := mul_nonneg h4l hw4
    have := mul_nonneg h5l hw5
    rw [hXdef]
    linarith
  have hXtot : X ≤ w.total := by
    have e1 : q1 * w.nps ≤ w.nps := mul_le_of_le_one_left hw1 h1u
    have e2 : q2 * w.csat ≤ w.csat := mul_le_of_le_one_left hw2 h2u
    have e3 : q3 * w.usage ≤ w.usage := mul_le_of_le_one_left hw3 h3u
    have e4 : q4 * w.logins ≤ w.logins := mul_le_of_le_one_left hw4 h4u
    have e5 : q5 * w.tickets ≤ w.tickets := mul_le_of_le_one_left hw5 h5u
    rw [hXdef]
    unfold Weights.total
    linarith
  have hfrac0 : 0 ≤ X / w.total := div_nonneg hX0 hpos.le
  have hfrac1 : X / w.total ≤ 1 := (div_le_one hpos).mpr hXtot
  have hscale0 : 0 ≤ X / w.total * 100 := by positivity
  have hscale1 : X / w.total * 100 ≤ 100 := by nlinarith
  unfold health_score_of
  rw [hX]
  have hdiv :
      PFloat.div (PFloat.num X) (PFloat.num w.total) = PFloat.num (X / w.total) := by
    simp [PFloat.div, htot]
  rw [hdiv]
  have hmul :
      PFloat.mul (PFloat.num (X / w.total)) (PFloat.num 100) =
        PFloat.num (X / w.total * 100) := rfl
  rw [hmul]
  exact round1_num_inRange hscale0 hscale1

/-! ### The composite score under an all-zero weight configuration -/

theorem mul_num_zero (s : PFloat) :
    PFloat.mul s (PFloat.num 0) = PFloat.nan ∨ PFloat.mul s (PFloat.num 0) = PFloat.num 0 := by
  cases s with
  | nan => exact Or.inl rfl
  | pinf => left; simp [PFloat.mul]
  | ninf => left; simp [PFloat.mul]
  | num a => right; simp [PFloat.mul]

theorem add_nan_or_zero {x y : PFloat}
    (hx : x = PFloat.nan ∨ x = PFloat.num 0) (hy : y = PFloat.nan ∨ y = PFloat.num 0) :
    PFloat.add x y = PFloat.nan ∨ PFloat.add x y = PFloat.num 0 := by
  rcases hx with hx | hx <;> rcases hy with hy | hy <;> subst hx <;> subst hy
  · exact Or.inl rfl
  · exact Or.inl rfl
  · exact Or.inl rfl
  · right; simp [PFloat.add]

theorem health_score_of_all_zero (s1 s2 s3 s4 s5 : PFloat) (w : Weights)
    (h1 : w.nps = 0) (h2 : w.csat = 0) (h3 : w.usage = 0) (h4 : w.logins = 0)
    (h5 : w.tickets = 0) :
    health_score_of s1 s2 s3 s4 s5 w = PFloat.nan := by
  have htot : w.total = 0 := by simp [Weights.total, h1, h2, h3, h4, h5]
  have hsum :
      healthWeightedSum s1 s2 s3 s4 s5 w = PFloat.nan ∨
        healthWeightedSum s1 s2 s3 s4 s5 w = PFloat.num 0 := by
    unfold healthWeightedSum
    rw [h1, h2, h3, h4, h5]
    exact add_nan_or_zero
      (add_nan_or_zero
        (add_nan_or_zero (add_nan_or_zero (mul_num_zero s1) (mul_num_zero s2))
          (mul_num_zero s3))
        (mul_num_zero s4))
      (mul_num_zero s5)
  unfold health_score_of
  rw [htot]
  rcases hsum with h | h <;> rw [h] <;> rfl

/-! ### The recommendations stage always raises -/

theorem recommended_actions_raises (row : EnrichedRow) :
    recommended_actions row = Except.error PyErr.attributeError := rfl

theorem buildFinalRows_cons (r : EnrichedRow) (rest : List EnrichedRow) :
    buildFinalRows (r :: rest) = Except.error (Err.pythonError PyErr.attributeError) := rfl

theorem buildFinalRows_ne_missingColumns (l : List EnrichedRow) (cs : List String) :
    buildFinalRows l ≠ Except.error (Err.missingColumns cs) := by
  cases l with
  | nil => simp [buildFinalRows]
  | cons r rest =>
    rw [buildFinalRows_cons]
    simp

/-! ### The claims -/

/-- C1 (counterexample): with every slider at 0 the weight sum is 0, yet no
weight-configuration error exists and nothing aborts before scoring:
`compute_health_scores` returns and scores the record, its Health_Score
being NaN via 0/0, and the abort the run does hit is an AttributeError —
the same abort as under any other weight configuration — never an
InvalidWeightConfiguration. -/
theorem C1_counterexample :
    (compute_health_scores [baseRecord] wZero 0).map
        (List.map EnrichedRow.Health_Score) = Except.ok [PFloat.nan] ∧
    runPipeline ⟨required_cols, [baseRecord]⟩ wZero 0 =
      Except.error (Err.pythonError PyErr.attributeError) ∧
    runPipeline ⟨required_cols, [baseRecord]⟩ wDefault 0 =
      Except.error (Err.pythonError PyErr.attributeError) := by
  with_unfolding_all decide

/-- C1 (amended): a weight configuration with non-negative weights summing
to 0 is not validated and raises nothing of its own; whenever
`compute_health_scores` returns, every record of the table has been scored
with Health_Score = NaN (the division 0/0).  (Any abort of the run is an
AttributeError unrelated to the weights.) -/
theorem C1_zero_weight_sum_scores_nan (rows : List RawRecord) (w : Weights)
    (today : ℤ) (hw1 : 0 ≤ w.nps) (hw2 : 0 ≤ w.csat) (hw3 : 0 ≤ w.usage)
    (hw4 : 0 ≤ w.logins) (hw5 : 0 ≤ w.tickets) (hsum : w.total = 0)
    (out : List EnrichedRow)
    (hout : compute_health_scores rows w today = Except.ok out) :
    ∀ e ∈ out, e.Health_Score = PFloat.nan := by
  unfold Weights.total at hsum
  have h1 : w.nps = 0 := by linarith
  have h2 : w.csat = 0 := by linarith
  have h3 : w.usage = 0 := by linarith
  have h4 : w.logins = 0 := by linarith
  have h5 : w.tickets = 0 := by linarith
  intro e he
  rw [compute_health_scores_ok hout, enrichedRows_eq] at he
  obtain ⟨r, hr, rfl⟩ := List.mem_map.mp he
  rw [enrichRow_Health_Score]
  exact health_score_of_all_zero _ _ _ _ _ w h1 h2 h3 h4 h5

/-- C1 (witness): the amended statement instantiated on a concrete
one-record table with the all-zero configuration. -/
theorem C1_witness :
    (enrichRow baseRecord wZero
        (seriesMax [coerceCell baseRecord.Logins_Last_30d 0])
        (seriesMax [coerceCell baseRecord.Tickets_Last_90d 0]) 0).Health_Score =
      PFloat.nan :=
  C1_zero_weight_sum_scores_nan [baseRecord] wZero 0 (le_refl 0) (le_refl 0)
    (le_refl 0) (le_refl 0) (le_refl 0) (by norm_num [wZero, Weights.total])
    (enrichedRows [baseRecord] wZero 0) (by with_unfolding_all decide) _
    (List.Mem.head _)

/-- C2: at the failing input — a two-record batch with ticket counts 1 and
5, where the second record is strictly above the batch median of 3 and per
the claim should receive the high-support-volume advisory — the tickets
rule evaluates `row["Tickets_Last_90d"].median()` on a scalar float and the
whole run aborts with AttributeError; no record is ever compared with the
batch median. -/
theorem C2_tickets_rule_crashes :
    runPipeline ⟨required_cols, [recTicketsLow, recTicketsHigh]⟩ wDefault 0 =
      Except.error (Err.pythonError PyErr.attributeError) := by
  with_unfolding_all decide

/-- C3 (counterexample): a record whose `Total_Seats` cell holds the number
0 (with `Active_Users` 0) is not coerced to 1 — only missing/unparseable
cells are — and its Usage_Ratio is NaN (0/0 survives the clip), hence not
in [0,1]. -/
theorem C3_counterexample :
    (compute_health_scores [recSeatsZero] wDefault 0).map
        (List.map EnrichedRow.usageFrac) = Except.ok [PFloat.nan] ∧
    ¬ PFloat.inRange 0 1 PFloat.nan ∧
    (compute_health_scores [recSeatsZero] wDefault 0).map
        (List.map EnrichedRow.Total_Seats) = Except.ok [(0 : ℚ)] := by
  with_unfolding_all decide

/-- C3 (amended): Usage_Ratio lies in [0,1] for every record except when
the coerced `Total_Seats` and `Active_Users` are both 0 (then it is NaN):
under the hypothesis that no record has both zero, every enriched record's
Usage_Ratio is a finite number in [0,1] — including Active_Users >
Total_Seats (clipped to 1) and Total_Seats < 0 or seats 0 with nonzero
users (clipped). -/
theorem C3_usage_inRange (rows : List RawRecord) (w : Weights) (today : ℤ)
    (hseat : ∀ r ∈ rows,
      coerceCell r.Total_Seats 1 = 0 → coerceCell r.Active_Users 0 ≠ 0)
    (out : List EnrichedRow)
    (hout : compute_health_scores rows w today = Except.ok out) :
    ∀ e ∈ out, PFloat.inRange 0 1 e.usageFrac := by
  intro e he
  rw [compute_health_scores_ok hout, enrichedRows_eq] at he
  obtain ⟨r, hr, rfl⟩ := List.mem_map.mp he
  rw [enrichRow_usageFrac]
  apply usage_of_inRange
  by_cases hs : coerceCell r.Total_Seats 1 = 0
  · exact Or.inr (hseat r hr hs)
  · exact Or.inl hs

/-- C3 (witness): the amended statement instantiated on a concrete
one-record table. -/
theorem C3_witness :
    PFloat.inRange 0 1
      (enrichRow baseRecord wDefault
        (seriesMax [coerceCell baseRecord.Logins_Last_30d 0])
        (seriesMax [coerceCell baseRecord.Tickets_Last_90d 0]) 0).usageFrac :=
  C3_usage_inRange [baseRecord] wDefault 0 (by with_unfolding_all decide)
    (enrichedRows [baseRecord] wDefault 0) (by with_unfolding_all decide) _
    (List.Mem.head _)

/-- C4 (counterexample): a batch with login counts -4 and -2 (negative
values pass coercion untouched) gives the first record score_logins =
(-4)/(-2) = 2, outside [0,1] — `score_logins` is the one per-metric score
with no clip. -/
theorem C4_counterexample :
    (compute_health_scores [recNegLoginsA, recNegLoginsB] wDefault 0).map
        (List.map EnrichedRow.score_logins) =
      Except.ok [PFloat.num 2, PFloat.num 1] ∧
    ¬ PFloat.inRange 0 1 (PFloat.num 2) := by
  with_unfolding_all decide

/-- C4 (amended): provided every record's coerced `Logins_Last_30d` is
non-negative and no record has coerced `Total_Seats` = 0 together with
`Active_Users` = 0, all five per-metric normalized scores of every record
lie in [0,1] (score_nps, score_csat and score_tickets unconditionally so,
negative ticket counts included). -/
theorem C4_scores_inRange (rows : List RawRecord) (w : Weights) (today : ℤ)
    (hlog : ∀ r ∈ rows, 0 ≤ coerceCell r.Logins_Last_30d 0)
    (hseat : ∀ r ∈ rows,
      coerceCell r.Total_Seats 1 = 0 → coerceCell r.Active_Users 0 ≠ 0)
    (out : List EnrichedRow)
    (hout : compute_health_scores rows w today = Except.ok out) :
    ∀ e ∈ out,
      PFloat.inRange 0 1 e.score_nps ∧ PFloat.inRange 0 1 e.score_csat ∧
      PFloat.inRange 0 1 e.score_usage ∧ PFloat.inRange 0 1 e.score_logins ∧
      PFloat.inRange 0 1 e.score_tickets := by
  intro e he
  rw [compute_health_scores_ok hout, enrichedRows_eq] at he
  obtain ⟨r, hr, rfl⟩ := List.mem_map.mp he
  obtain ⟨ML, hML, hxL⟩ := seriesMax_spec
    (List.mem_map.mpr ⟨r, hr, rfl⟩ :
      coerceCell r.Logins_Last_30d 0 ∈ rows.map (fun s => coerceCell s.Logins_Last_30d 0))
  obtain ⟨MT, hMT, hxT⟩ := seriesMax_spec
    (List.mem_map.mpr ⟨r, hr, rfl⟩ :
      coerceCell r.Tickets_Last_90d 0 ∈ rows.map (fun s => coerceCell s.Tickets_Last_90d 0))
  refine ⟨?_, ?_, ?_, ?_, ?_⟩
  · rw [enrichRow_score_nps]
    exact score_nps_of_inRange _
  · rw [enrichRow_score_csat]
    exact score_csat_of_inRange _
  · rw [enrichRow_score_usage]
    apply usage_of_inRange
    by_cases hs : coerceCell r.Total_Seats 1 = 0
    · exact Or.inr (hseat r hr hs)
    · exact Or.inl hs
  · rw [enrichRow_score_logins, hML]
    exact score_logins_of_inRange _ _ (hlog r hr) hxL
  · rw [enrichRow_score_tickets, hMT]
    exact score_tickets_of_inRange _ _ hxT

/-- C4 (witness): the amended statement instantiated on a concrete
one-record table. -/
theorem C4_witness :
    PFloat.inRange 0 1
      (enrichRow baseRecord wDefault
        (seriesMax [coerceCell baseRecord.Logins_Last_30d 0])
        (seriesMax [coerceCell baseRecord.Tickets_Last_90d 0]) 0).score_logins :=
  (C4_scores_inRange [baseRecord] wDefault 0 (by with_unfolding_all decide)
    (by with_unfolding_all decide) (enrichedRows [baseRecord] wDefault 0)
    (by with_unfolding_all decide) _ (List.Mem.head _)).2.2.2.1

/-- C5 (counterexample): with the valid weight configuration putting all
weight on logins (non-negative weights, positive sum 1) and a batch with
login counts -4 and -2, the first record's Health_Score is 200, outside
[0,100]. -/
theorem C5_counterexample :
    (compute_health_scores [recNegLoginsA, recNegLoginsB] wLoginsOnly 0).map
        (List.map EnrichedRow.Health_Score) =
      Except.ok [PFloat.num 200, PFloat.num 100] ∧
    (0 ≤ wLoginsOnly.nps ∧ 0 ≤ wLoginsOnly.csat ∧ 0 ≤ wLoginsOnly.usage ∧
      0 ≤ wLoginsOnly.logins ∧ 0 ≤ wLoginsOnly.tickets ∧ 0 < wLoginsOnly.total) ∧
    ¬ PFloat.inRange 0 100 (PFloat.num 200) := by
  with_unfolding_all decide

/-- C5 (amended): for every weight configuration with five non-negative
weights of positive sum, every record's Health_Score lies in [0,100],
provided additionally that every record's coerced `Logins_Last_30d` is
non-negative and no record has coerced `Total_Seats` = 0 together with
`Active_Users` = 0 (otherwise score_logins, the unclipped score, or a NaN
usage ratio can drive the composite outside the range). -/
theorem C5_health_inRange (rows : List RawRecord) (w : Weights) (today : ℤ)
    (hw1 : 0 ≤ w.nps) (hw2 : 0 ≤ w.csat) (hw3 : 0 ≤ w.usage)
    (hw4 : 0 ≤ w.logins) (hw5 : 0 ≤ w.tickets) (hpos : 0 < w.total)
    (hlog : ∀ r ∈ rows, 0 ≤ coerceCell r.Logins_Last_30d 0)
    (hseat : ∀ r ∈ rows,
      coerceCell r.Total_Seats 1 = 0 → coerceCell r.Active_Users 0 ≠ 0)
    (out : List EnrichedRow)
    (hout : compute_health_scores rows w today = Except.ok out) :
    ∀ e ∈ out, PFloat.inRange 0 100 e.Health_Score := by
  intro e he
  rw [compute_health_scores_ok hout, enrichedRows_eq] at he
  obtain ⟨r, hr, rfl⟩ := List.mem_map.mp he
  obtain ⟨ML, hML, hxL⟩ := seriesMax_spec
    (List.mem_map.mpr ⟨r, hr, rfl⟩ :
      coerceCell r.Logins_Last_30d 0 ∈ rows.map (fun s => coerceCell s.Logins_Last_30d 0))
  obtain ⟨MT, hMT, hxT⟩ := seriesMax_spec
    (List.mem_map.mpr ⟨r, hr, rfl⟩ :
      coerceCell r.Tickets_Last_90d 0 ∈ rows.map (fun s => coerceCell s.Tickets_Last_90d 0))
  rw [enrichRow_Health_Score, hML, hMT]
  apply health_score_of_inRange _ _ _ _ _ _ (score_nps_of_inRange _)
    (score_csat_of_inRange _) _ (score_logins_of_inRange _ _ (hlog r hr) hxL)
    (score_tickets_of_inRange _ _ hxT) hw1 hw2 hw3 hw4 hw5 hpos
  apply usage_of_inRange
  by_cases hs : coerceCell r.Total_Seats 1 = 0
  · exact Or.inr (hseat r hr hs)
  · exact Or.inl hs

/-- C5 (witness): the amended statement instantiated on a concrete
one-record table with the default sliders. -/
theorem C5_witness :
    PFloat.inRange 0 100
      (enrichRow baseRecord wDefault
        (seriesMax [coerceCell baseRecord.Logins_Last_30d 0])
        (seriesMax [coerceCell baseRecord.Tickets_Last_90d 0]) 0).Health_Score :=
  C5_health_inRange [baseRecord] wDefault 0 (by norm_num [wDefault])
    (by norm_num [wDefault]) (by norm_num [wDefault]) (by norm_num [wDefault])
    (by norm_num [wDefault]) (by norm_num [wDefault, Weights.total])
    (by with_unfolding_all decide) (by with_unfolding_all decide)
    (enrichedRows [baseRecord] wDefault 0) (by with_unfolding_all decide) _
    (List.Mem.head _)

/-- C6 (counterexample): a record scored exactly 49.9 (NPS = -0.2 under
NPS-only weights) is banded Red, not Yellow: `pd.cut`'s right-closed bins
make 49.9 the top of the Red bin. -/
theorem C6_counterexample :
    (compute_health_scores [recNps499] wNpsOnly 0).map
        (List.map EnrichedRow.Health_Score) = Except.ok [PFloat.num (499/10)] ∧
    (compute_health_scores [recNps499] wNpsOnly 0).map
        (List.map EnrichedRow.Health_Band) = Except.ok [some Band.red] ∧
    some Band.red ≠ some Band.yellow := by
  with_unfolding_all decide

/-- C6 (amended): the boundary value 49.9 is Red-inclusive and only 74.9 is
Yellow-inclusive: a record whose Health_Score is exactly 49.9 is banded
Red, and one whose Health_Score is exactly 74.9 is banded Yellow (bins are
(-1, 49.9] Red, (49.9, 74.9] Yellow, (74.9, 100] Green). -/
theorem C6_band_edges :
    bandOf (PFloat.num (499/10)) = some Band.red ∧
    bandOf (PFloat.num (749/10)) = some Band.yellow ∧
    (compute_health_scores [recNps499, recNps749] wNpsOnly 0).map
        (List.map EnrichedRow.Health_Score) =
      Except.ok [PFloat.num (499/10), PFloat.num (749/10)] ∧
    (compute_health_scores [recNps499, recNps749] wNpsOnly 0).map
        (List.map EnrichedRow.Health_Band) =
      Except.ok [some Band.red, some Band.yellow] := by
  with_unfolding_all decide

/-- C7: a table lacking required columns makes the run halt, before any
scoring, with a MissingColumns error listing exactly the required columns
absent from the header (in the canonical order of `required_cols`); a
missing value in an individual `Total_Seats` cell is instead coerced to 1
by `compute_health_scores` and is never reported as a MissingColumns
error. -/
theorem C7_missing_columns (t : RawTable) (w : Weights) (today : ℤ) :
    (missingCols t ≠ [] →
      runPipeline t w today = Except.error (Err.missingColumns (missingCols t))) ∧
    (∀ r ∈ t.rows, r.Total_Seats = none →
      ∀ mL mT, (enrichRow r w mL mT today).Total_Seats = 1) ∧
    (missingCols t = [] →
      ∀ cs, runPipeline t w today ≠ Except.error (Err.missingColumns cs)) := by
  refine ⟨?_, ?_, ?_⟩
  · intro h
    unfold runPipeline
    rw [if_neg h]
  · intro r _ hnone mL mT
    rw [enrichRow_Total_Seats]
    simp [coerceCell, hnone]
  · intro h cs
    unfold runPipeline
    rw [if_pos h]
    cases hc : compute_health_scores t.rows w today with
    | error e => simp
    | ok enriched => exact buildFinalRows_ne_missingColumns enriched cs

/-- C7 (witness): a header without `Total_Seats` halts with exactly that
column reported; a record whose `Total_Seats` cell is missing is coerced
to 1. -/
theorem C7_witness :
    runPipeline tableNoSeatsCol wDefault 0 =
      Except.error (Err.missingColumns ["Total_Seats"]) ∧
    (enrichRow recNoSeats wDefault (PFloat.num 0) (PFloat.num 0) 0).Total_Seats = 1 := by
  constructor
  · rw [(C7_missing_columns tableNoSeatsCol wDefault 0).1 (by with_unfolding_all decide)]
    with_unfolding_all decide
  · exact (C7_missing_columns ⟨required_cols, [recNoSeats]⟩ wDefault 0).2.1
      recNoSeats (List.Mem.head _) rfl (PFloat.num 0) (PFloat.num 0)

/-- C8: at the failing input — a record whose renewal date parsed and lies
100 days ahead (within the 120-day window, so per the claim the renewal
advisory should be appended) — `recommended_actions` raises AttributeError
at the earlier tickets rule, so the renewal rule never runs and the whole
run aborts. -/
theorem C8_renewal_rule_unreachable :
    (compute_health_scores [recRenewSoon] wDefault 0).map
        (List.map EnrichedRow.Days_to_Renewal) = Except.ok [PFloat.num 100] ∧
    PFloat.le (PFloat.num 100) (PFloat.num 120) = true ∧
    runPipeline ⟨required_cols, [recRenewSoon]⟩ wDefault 0 =
      Except.error (Err.pythonError PyErr.attributeError) := by
  with_unfolding_all decide

/-- C9: the claim presupposes completed runs, but the pipeline never
yields enriched output on any input: every run ends in an error — a
MissingColumns halt, or an AttributeError raised at the renewal-horizon
step (empty table, or no `Renewal_Date` parses) or at the tickets rule of
the recommendations stage.  The three concrete runs exhibit the
recommendation-stage abort, the date-stage abort on an all-NaT table, and
the date-stage abort on the empty table; each abort is the same on a
second identical run, there being no ambient state besides the explicit
`today`. -/
theorem C9_pipeline_never_yields_output :
    (∀ (t : RawTable) (w : Weights) (today : ℤ),
      ∃ e, runPipeline t w today = Except.error e) ∧
    runPipeline ⟨required_cols, [baseRecord]⟩ wDefault 0 =
      Except.error (Err.pythonError PyErr.attributeError) ∧
    runPipeline ⟨required_cols, [recNoDate]⟩ wDefault 0 =
      Except.error (Err.pythonError PyErr.attributeError) ∧
    runPipeline ⟨required_cols, ([] : List RawRecord)⟩ wDefault 0 =
      Except.error (Err.pythonError PyErr.attributeError) := by
  refine ⟨?_, by with_unfolding_all decide, by with_unfolding_all decide,
    by with_unfolding_all decide⟩
  intro t w today
  unfold runPipeline
  by_cases hm : missingCols t = []
  · rw [if_pos hm]
    cases hc : compute_health_scores t.rows w today with
    | error e => exact ⟨Err.pythonError e, rfl⟩
    | ok enriched =>
      have hne : t.rows ≠ [] := by
        intro hnil
        rw [hnil] at hc
        exact absurd hc (by simp [compute_health_scores])
      have hout := compute_health_scores_ok hc
      cases hrows : t.rows with
      | nil => exact absurd hrows hne
      | cons r rest =>
        show ∃ e, buildFinalRows enriched = Except.error e
        rw [hout, enrichedRows_eq, hrows, List.map_cons, buildFinalRows_cons]
        exact ⟨Err.pythonError PyErr.attributeError, rfl⟩
  · rw [if_neg hm]
    exact ⟨Err.missingColumns (missingCols t), rfl⟩

/-- C10: at the failing inputs — three records banded Red, Yellow and Green
— `recommended_actions` never returns a string at all: after the band rule
group appends its message, the tickets rule raises AttributeError, so no
record (of any band) gets a Recommended_Actions value. -/
theorem C10_recommended_actions_never_returns :
    (compute_health_scores [recBandRed, recBandYellow, recBandGreen] wNpsOnly 0).map
        (List.map EnrichedRow.Health_Band) =
      Except.ok [some Band.red, some Band.yellow, some Band.green] ∧
    (compute_health_scores [recBandRed, recBandYellow, recBandGreen] wNpsOnly 0).map
        (List.map recommended_actions) =
      Except.ok [Except.error PyErr.attributeError, Except.error PyErr.attributeError,
        Except.error PyErr.attributeError] := by
  with_unfolding_all decide
